import Mathlib

/-!
Shallow embedding of `FORGE.ObjectRenderer` (src/src/render/ObjectRenderer.js).

The orchestrator holds an ordered list of objects, a container scene whose
children are the objects' meshes, a change-detection cache
(`lastViewport` / `lastViewType`), and a picking subsystem.  `render` is
modelled as a pure function from state to (new state, list of observable
effects); the effects log records material replacements, uniform updates,
the compile call, the main draw call and the picking pass, in program order.
JS `null`/`undefined` references are modelled with `Option`; statements that
would throw on a `null` dereference are modelled in the `Option` monad.
-/

namespace FORGE

/-- View projection types (`FORGE.ViewType`); the source uses at least
`UNDEFINED` and `RECTILINEAR`; `FLAT` and `GOPRO` stand for the other
projection kinds. -/
inductive ViewType
  | UNDEFINED
  | RECTILINEAR
  | FLAT
  | GOPRO
deriving DecidableEq, Repr

/-- Hotspot material types (`FORGE.HotspotMaterial.types`); the render loop
only distinguishes `GRAPHICS` from everything else. -/
inductive MaterialType
  | GRAPHICS
  | TEXTURE
  | VIDEO
deriving DecidableEq, Repr, Inhabited

/-- Shader kind string passed to `getMaterialForView`: `"color"` or `"map"`. -/
inductive ShaderType
  | color
  | map
deriving DecidableEq, Repr

/-- THREE render side constants (front / back / double). -/
inductive Side
  | front
  | back
  | double
deriving DecidableEq, Repr, Inhabited

/-- A THREE material as the render loop observes and mutates it:
`transparent`, `opacity`, `side`, and whether `material.program` is defined
(i.e. the shader has been compiled). -/
structure ThreeMaterial where
  transparent : Bool
  opacity : ℚ
  side : Side
  program : Bool
deriving DecidableEq, Repr, Inhabited

/-- A mesh: stable numeric `id`, currently assigned material, frustum-culling
flag, and the `userData.pickingColor` tag (absent before `_boot`). -/
structure Mesh where
  id : ℕ
  material : ThreeMaterial
  frustumCulled : Bool
  pickingColor : Option ℕ
deriving DecidableEq, Repr, Inhabited

/-- The hotspot material descriptor carried by an object: `type`,
`transparent`, `opacity`, and the render side its `getThreeSide()` returns. -/
structure HotspotMaterial where
  mtype : MaterialType
  transparent : Bool
  opacity : ℚ
  threeSide : Side
deriving DecidableEq, Repr, Inhabited

/-- `material.getThreeSide()`: side selection accessor of the descriptor. -/
def HotspotMaterial.getThreeSide (m : HotspotMaterial) : Side :=
  m.threeSide

/-- An entry of the object list (`FORGE.Object3D`): a mesh, a material
descriptor and the externally mutated `ready` / `interactive` flags. -/
structure Object3D where
  mesh : Mesh
  material : HotspotMaterial
  ready : Bool
  interactive : Bool
deriving DecidableEq, Repr, Inhabited

/-- A viewport as the orchestrator consumes it: a stable `uid`, and the
current view descriptor's `type` (`viewport.view.current.type`).  Viewports
are compared by identity in the source (`===` for the active-viewport test,
`.uid` for the change-detection gate); `uid` is unique per viewport so
structural equality of this record models reference identity. -/
structure Viewport where
  uid : ℕ
  viewType : ViewType
deriving DecidableEq, Repr

/-- Environment the render call consults: the renderer facility's material
cache `getMaterialForView(viewType, shaderType, transparent)` and the
externally designated active viewport (`viewer.story.scene.activeViewport`). -/
structure RenderEnv where
  getMaterialForView : ViewType → ShaderType → Bool → ThreeMaterial
  activeViewport : Option Viewport

/-- Observable effects of a render call, in program order.  `replaceMaterial`
records the loop index of the object whose mesh material reference was
reassigned together with the `getMaterialForView` key used;
`updateUniforms` records the call `view.updateUniforms(mesh.material.uniforms)`
for the object at the given loop index. -/
inductive Effect
  | replaceMaterial (j : ℕ) (viewType : ViewType) (shader : ShaderType) (transparent : Bool)
  | updateUniforms (j : ℕ) (viewType : ViewType)
  | compile
  | draw
  | pickingRender (viewportUid : ℕ)
deriving DecidableEq, Repr

/-- Live orchestrator state used by `render`: the object list, the container
scene's children (the meshes added at `_boot`), and the change-detection
cache.  `lastViewport` is `none` at construction; `lastViewType` is
`ViewType.UNDEFINED` at construction. -/
structure LiveState where
  objects : List Object3D
  children : List Mesh
  lastViewport : Option Viewport
  lastViewType : ViewType
deriving Repr

/-- `FORGE.ObjectRenderer.prototype._boot`: for each object, set
`mesh.userData.pickingColor = FORGE.Picking.colorFromObjectID(mesh.id)` and
add the mesh to the fresh scene.  `colorFromObjectID` is the picking
subsystem's pure identity-to-color map, taken as a parameter.  Returns the
updated object list and the scene's children. -/
def boot (colorFromObjectID : ℕ → ℕ) (objects : List Object3D) :
    List Object3D × List Mesh :=
  let objs := objects.map (fun o =>
    { o with mesh := { o.mesh with
        pickingColor := some (colorFromObjectID o.mesh.id) } })
  (objs, objs.map (·.mesh))

/-- Initial live state produced by the constructor: booted objects and
children, `lastViewport = null`, `lastViewType = UNDEFINED`. -/
def initState (colorFromObjectID : ℕ → ℕ) (objects : List Object3D) : LiveState :=
  let b := boot colorFromObjectID objects
  { objects := b.1
    children := b.2
    lastViewport := none
    lastViewType := ViewType.UNDEFINED }

/-- `FORGE.ObjectRenderer.prototype._getPickableObjects`: the objects with
`ready === true && interactive === true`, by `Array.prototype.filter`. -/
def getPickableObjects (objects : List Object3D) : List Object3D :=
  objects.filter (fun object => object.ready == true && object.interactive == true)

/-- `FORGE.ObjectRenderer.prototype.getPickableObjectWithId`:
`find` over the pickable objects for `object.mesh.id === id`. -/
def getPickableObjectWithId (objects : List Object3D) (id : ℕ) : Option Object3D :=
  (getPickableObjects objects).find? (fun object => object.mesh.id == id)

/-- The material-renewal gate of the render loop, line for line:
`this._lastViewport === null || this._lastViewport.uid !== viewport.uid ||
this._lastViewType === FORGE.ViewType.UNDEFINED ||
this._lastViewType !== view.type ||
mesh.material.transparent !== material.transparent`. -/
def renewNeeded (lastViewport : Option Viewport) (lastViewType : ViewType)
    (viewport : Viewport) (viewTy : ViewType)
    (meshMaterialTransparent declaredTransparent : Bool) : Bool :=
  (match lastViewport with
   | none => true
   | some lv => lv.uid != viewport.uid) ||
  lastViewType == ViewType.UNDEFINED ||
  lastViewType != viewTy ||
  meshMaterialTransparent != declaredTransparent

/-- `var shaderType = material.type === FORGE.HotspotMaterial.types.GRAPHICS ?
"color" : "map";` -/
def shaderTypeOf (material : HotspotMaterial) : ShaderType :=
  if material.mtype = MaterialType.GRAPHICS then ShaderType.color else ShaderType.map

/-- One iteration of the render loop body for the object at loop index `j`:
checks `mesh.material.program`, conditionally replaces the mesh material and
sets `frustumCulled`, then unconditionally refreshes `side`, `transparent`,
`opacity` and calls `view.updateUniforms`.  Returns the updated object,
whether this object requires compilation, and the effects it emitted. -/
def renderObject (env : RenderEnv) (viewport : Viewport) (viewTy : ViewType)
    (lastViewport : Option Viewport) (lastViewType : ViewType)
    (j : ℕ) (object : Object3D) : Object3D × Bool × List Effect :=
  let material := object.material
  let mesh := object.mesh
  let needsCompilation := mesh.material.program == false
  let renew := renewNeeded lastViewport lastViewType viewport viewTy
      mesh.material.transparent material.transparent
  let shaderType := shaderTypeOf material
  let mesh1 :=
    if renew then
      { mesh with
          frustumCulled := viewTy == ViewType.RECTILINEAR
          material := env.getMaterialForView viewTy shaderType material.transparent }
    else mesh
  let effs1 :=
    if renew then [Effect.replaceMaterial j viewTy shaderType material.transparent]
    else ([] : List Effect)
  let mesh2 := { mesh1 with material := { mesh1.material with
      side := material.getThreeSide
      transparent := material.transparent
      opacity := material.opacity } }
  ({ object with mesh := mesh2 }, needsCompilation,
   effs1 ++ [Effect.updateUniforms j viewTy])

/-- The render loop (`for (var j=0; ...)`) starting at loop index `j`:
threads the `compilationNeeded` flag (initially `false`, OR-ed across
iterations) and concatenates effects in iteration order.  The loop reads the
change-detection cache, which the call only updates after the loop, so every
iteration sees the same `lastViewport` / `lastViewType`. -/
def renderLoop (env : RenderEnv) (viewport : Viewport) (viewTy : ViewType)
    (lastViewport : Option Viewport) (lastViewType : ViewType)
    (j : ℕ) : List Object3D → List Object3D × Bool × List Effect
  | [] => ([], false, [])
  | object :: rest =>
    let r := renderObject env viewport viewTy lastViewport lastViewType j object
    let rs := renderLoop env viewport viewTy lastViewport lastViewType (j + 1) rest
    (r.1 :: rs.1, r.2.1 || rs.2.1, r.2.2 ++ rs.2.2)

/-- `FORGE.ObjectRenderer.prototype.render(viewport, target)`:
empty-container short-circuit, per-object reconciliation loop, conditional
pre-compilation, main draw, conditional picking pass, then update of the
change-detection cache.  The render target only flows into the draw call and
carries no observable state, so it is omitted from the effect. -/
def render (env : RenderEnv) (s : LiveState) (viewport : Viewport) :
    LiveState × List Effect :=
  if s.children.length = 0 then (s, [])
  else
    let viewTy := viewport.viewType
    let lp := renderLoop env viewport viewTy s.lastViewport s.lastViewType 0 s.objects
    let objects := lp.1
    let compilationNeeded := lp.2.1
    let pickable := getPickableObjects objects
    let effects := lp.2.2
      ++ (if compilationNeeded == true then [Effect.compile] else [])
      ++ [Effect.draw]
      ++ (if env.activeViewport = some viewport ∧ pickable.length > 0
          then [Effect.pickingRender viewport.uid] else [])
    ({ s with objects := objects
              lastViewport := some viewport
              lastViewType := viewTy },
     effects)

/-- The container scene as `destroy` observes it: its `children` array, which
`destroy` sets to `null` before dropping the scene reference. -/
structure Scene where
  children : Option (List Mesh)
deriving Repr

/-- Full orchestrator state for the lifecycle claims: every owned reference
the source may set to `null` is an `Option`.  `picking`, `viewer` are opaque
tokens standing for the referenced collaborators. -/
structure ORState where
  objects : Option (List Object3D)
  scene : Option Scene
  lastViewport : Option Viewport
  lastViewType : ViewType
  picking : Option Unit
  viewer : Option Unit
deriving Repr

/-- `this._picking.destroy()`: calling a method on `null` throws, so the call
is `none` exactly when the reference is `null`. -/
def pickingDestroyCall (picking : Option Unit) : Option Unit :=
  match picking with
  | some _ => some ()
  | none => none

/-- The guarded picking-release step of `destroy`:
`if (this._picking !== null) { this._picking.destroy(); this._picking = null; }`. -/
def destroyPickingStep (s : ORState) : Option ORState :=
  if s.picking ≠ none then do
    let _ ← pickingDestroyCall s.picking
    pure { s with picking := none }
  else
    pure s

/-- `FORGE.ObjectRenderer.prototype.destroy`, statement by statement:
guarded picking release, `_objects = null`, `_scene.children = null`
(dereferences `_scene`, hence the bind), `_scene = null`,
`_lastViewport = null`, `_viewer = null`.  The trailing
`FORGE.BaseObject.prototype.destroy.call(this)` touches no state modelled
here. -/
def destroy (s : ORState) : Option ORState := do
  let s1 ← destroyPickingStep s
  let s2 := { s1 with objects := none }
  let sc ← s2.scene
  let s3 := { s2 with scene := some { sc with children := none } }
  let s4 := { s3 with scene := none }
  let s5 := { s4 with lastViewport := none }
  pure { s5 with viewer := none }

/-- A concrete THREE material (not yet compiled) for the examples below. -/
def sampleMaterial : ThreeMaterial :=
  { transparent := false, opacity := 1, side := Side.front, program := false }

/-- A concrete mesh with id 7 for the examples below. -/
def sampleMesh : Mesh :=
  { id := 7, material := sampleMaterial, frustumCulled := false, pickingColor := none }

/-- A concrete flat-color material descriptor for the examples below. -/
def sampleDescriptor : HotspotMaterial :=
  { mtype := MaterialType.GRAPHICS, transparent := false, opacity := 1,
    threeSide := Side.front }

/-- A concrete ready-and-interactive object for the examples below. -/
def sampleObject : Object3D :=
  { mesh := sampleMesh, material := sampleDescriptor, ready := true, interactive := true }

/-- A second pickable object sharing mesh id 7 (duplicate-id example). -/
def sampleObjectDup : Object3D :=
  { mesh := { id := 7, material := sampleMaterial, frustumCulled := true,
              pickingColor := none },
    material := sampleDescriptor, ready := true, interactive := true }

/-- A concrete rectilinear viewport for the examples below. -/
def sampleViewport : Viewport :=
  { uid := 3, viewType := ViewType.RECTILINEAR }

/-- A concrete environment: a one-material cache and the sample viewport
designated active. -/
def sampleEnv : RenderEnv :=
  { getMaterialForView := fun _ _ transparent =>
      { transparent := transparent, opacity := 1, side := Side.front, program := true }
    activeViewport := some sampleViewport }

/-- A freshly booted one-object orchestrator state. -/
def sampleState : LiveState :=
  initState (fun n => n) [sampleObject]

/-- A freshly booted zero-object orchestrator state. -/
def sampleEmptyState : LiveState :=
  initState (fun n => n) []

/-- A concrete live full orchestrator state for the destroy example. -/
def sampleORState : ORState :=
  { objects := some [sampleObject], scene := some { children := some [sampleMesh] },
    lastViewport := some sampleViewport, lastViewType := ViewType.RECTILINEAR,
    picking := some (), viewer := some () }

/-- The fields of an object that the render loop body never changes
(`material` descriptor, `ready`, `interactive`, mesh `id`, picking color),
and the material fields it always refreshes from the descriptor. -/
theorem renderObject_fields (env : RenderEnv) (vp : Viewport) (vt : ViewType)
    (lv : Option Viewport) (lt : ViewType) (j : ℕ) (o : Object3D) :
    (renderObject env vp vt lv lt j o).1.material = o.material ∧
    (renderObject env vp vt lv lt j o).1.ready = o.ready ∧
    (renderObject env vp vt lv lt j o).1.interactive = o.interactive ∧
    (renderObject env vp vt lv lt j o).1.mesh.id = o.mesh.id ∧
    (renderObject env vp vt lv lt j o).1.mesh.pickingColor = o.mesh.pickingColor ∧
    (renderObject env vp vt lv lt j o).1.mesh.material.side = o.material.getThreeSide ∧
    (renderObject env vp vt lv lt j o).1.mesh.material.transparent = o.material.transparent ∧
    (renderObject env vp vt lv lt j o).1.mesh.material.opacity = o.material.opacity := by
  simp only [renderObject]
  split <;> simp

/-- The frustum-culling flag after one loop iteration: set from the view type
when the material was renewed, untouched otherwise. -/
theorem renderObject_frustum (env : RenderEnv) (vp : Viewport) (vt : ViewType)
    (lv : Option Viewport) (lt : ViewType) (j : ℕ) (o : Object3D) :
    (renderObject env vp vt lv lt j o).1.mesh.frustumCulled =
      if renewNeeded lv lt vp vt o.mesh.material.transparent o.material.transparent
      then (vt == ViewType.RECTILINEAR) else o.mesh.frustumCulled := by
  simp only [renderObject]
  split <;> simp

/-- The compilation-needed contribution of one loop iteration. -/
theorem renderObject_need (env : RenderEnv) (vp : Viewport) (vt : ViewType)
    (lv : Option Viewport) (lt : ViewType) (j : ℕ) (o : Object3D) :
    (renderObject env vp vt lv lt j o).2.1 = (o.mesh.material.program == false) :=
  rfl

/-- The effect list of one loop iteration, in closed form. -/
theorem renderObject_effects (env : RenderEnv) (vp : Viewport) (vt : ViewType)
    (lv : Option Viewport) (lt : ViewType) (j : ℕ) (o : Object3D) :
    (renderObject env vp vt lv lt j o).2.2 =
      (if renewNeeded lv lt vp vt o.mesh.material.transparent o.material.transparent
       then [Effect.replaceMaterial j vt (shaderTypeOf o.material) o.material.transparent]
       else []) ++ [Effect.updateUniforms j vt] := by
  simp only [renderObject]

/-- The loop preserves the number of objects. -/
theorem renderLoop_length (env : RenderEnv) (vp : Viewport) (vt : ViewType)
    (lv : Option Viewport) (lt : ViewType) (objs : List Object3D) :
    ∀ j, (renderLoop env vp vt lv lt j objs).1.length = objs.length := by
  induction objs with
  | nil => intro j; rfl
  | cons o rest ih => intro j; simp [renderLoop, ih]

/-- The object at position `i` after the loop is the loop body applied at
loop index `j + i` to the object at position `i` before the loop. -/
theorem renderLoop_get (env : RenderEnv) (vp : Viewport) (vt : ViewType)
    (lv : Option Viewport) (lt : ViewType) (objs : List Object3D) :
    ∀ j i (h : i < objs.length) (h' : i < (renderLoop env vp vt lv lt j objs).1.length),
      (renderLoop env vp vt lv lt j objs).1.get ⟨i, h'⟩ =
        (renderObject env vp vt lv lt (j + i) (objs.get ⟨i, h⟩)).1 := by
  induction objs with
  | nil => intro j i h h'; exact absurd h (Nat.not_lt_zero i)
  | cons o rest ih =>
    intro j i h h'
    cases i with
    | zero => rfl
    | succ i =>
      have hrest : i < rest.length := Nat.lt_of_succ_lt_succ h
      have hrest' : i < (renderLoop env vp vt lv lt (j + 1) rest).1.length := by
        rw [renderLoop_length]; exact hrest
      have := ih (j + 1) i hrest hrest'
      simpa [renderLoop, Nat.add_assoc, Nat.add_comm 1 i] using this

/-- `renderLoop_get` phrased with default-valued indexing. -/
theorem renderLoop_getD (env : RenderEnv) (vp : Viewport) (vt : ViewType)
    (lv : Option Viewport) (lt : ViewType) (objs : List Object3D) :
    ∀ j i, i < objs.length →
      (renderLoop env vp vt lv lt j objs).1.getD i default =
        (renderObject env vp vt lv lt (j + i) (objs.getD i default)).1 := by
  induction objs with
  | nil => intro j i h; exact absurd h (Nat.not_lt_zero i)
  | cons o rest ih =>
    intro j i h
    cases i with
    | zero => rfl
    | succ i =>
      have := ih (j + 1) i (Nat.lt_of_succ_lt_succ h)
      simpa [renderLoop, Nat.add_assoc, Nat.add_comm 1 i] using this

/-- The compilation-needed flag after the loop is the disjunction, over all
objects, of "this object's mesh material has no compiled program". -/
theorem renderLoop_need (env : RenderEnv) (vp : Viewport) (vt : ViewType)
    (lv : Option Viewport) (lt : ViewType) (objs : List Object3D) :
    ∀ j, (renderLoop env vp vt lv lt j objs).2.1 =
      objs.any (fun o => o.mesh.material.program == false) := by
  induction objs with
  | nil => intro j; rfl
  | cons o rest ih => intro j; simp [renderLoop, ih, renderObject_need]

/-- Every effect the loop emits is a material replacement or a uniforms
update; in particular the loop emits no compile, draw or picking effect. -/
theorem renderLoop_effects_shape (env : RenderEnv) (vp : Viewport) (vt : ViewType)
    (lv : Option Viewport) (lt : ViewType) (objs : List Object3D) :
    ∀ j, ∀ e ∈ (renderLoop env vp vt lv lt j objs).2.2,
      (∃ k vt' sh tr, e = Effect.replaceMaterial k vt' sh tr) ∨
      (∃ k vt', e = Effect.updateUniforms k vt') := by
  induction objs with
  | nil => intro j e he; simp [renderLoop] at he
  | cons o rest ih =>
    intro j e he
    simp only [renderLoop, List.mem_append, renderObject_effects] at he
    rcases he with (he | he) | he
    · left
      rcases Decidable.em (renewNeeded lv lt vp vt o.mesh.material.transparent
          o.material.transparent = true) with hr | hr
      · rw [if_pos hr] at he
        simp at he
        exact ⟨j, vt, shaderTypeOf o.material, o.material.transparent, he⟩
      · rw [if_neg hr] at he
        simp at he
    · right
      simp at he
      exact ⟨j, vt, he⟩
    · exact ih (j + 1) e he

/-- A replacement effect for loop index `k` is emitted by the loop starting
at index `j` exactly when `k` addresses some object of the list and the
renewal gate holds for that object; in that case the recorded key is the
view type, the object's shader kind and its declared transparency. -/
theorem renderLoop_replace_mem (env : RenderEnv) (vp : Viewport) (vt : ViewType)
    (lv : Option Viewport) (lt : ViewType) (objs : List Object3D) :
    ∀ j k vt' sh tr,
      (Effect.replaceMaterial k vt' sh tr ∈ (renderLoop env vp vt lv lt j objs).2.2 ↔
        ∃ i, ∃ h : i < objs.length, k = j + i ∧
          renewNeeded lv lt vp vt (objs.get ⟨i, h⟩).mesh.material.transparent
            (objs.get ⟨i, h⟩).material.transparent = true ∧
          vt' = vt ∧ sh = shaderTypeOf (objs.get ⟨i, h⟩).material ∧
          tr = (objs.get ⟨i, h⟩).material.transparent) := by
  induction objs with
  | nil => intro j k vt' sh tr; simp [renderLoop]
  | cons o rest ih =>
    intro j k vt' sh tr
    simp only [renderLoop, List.mem_append, renderObject_effects]
    constructor
    · intro he
      rcases he with (he | he) | he
      · rcases Decidable.em (renewNeeded lv lt vp vt o.mesh.material.transparent
            o.material.transparent = true) with hr | hr
        · rw [if_pos hr] at he
          simp only [List.mem_singleton, Effect.replaceMaterial.injEq] at he
          refine ⟨0, Nat.succ_pos _, ?_⟩
          simpa [he.1] using ⟨hr, he.2.1, he.2.2.1, he.2.2.2⟩
        · rw [if_neg hr] at he
          simp at he
      · simp at he
      · rcases (ih (j + 1) k vt' sh tr).mp he with ⟨i, hi, hk, hgate, hvt, hsh, htr⟩
        refine ⟨i + 1, Nat.succ_lt_succ hi, ?_⟩
        constructor
        · omega
        · exact ⟨hgate, hvt, hsh, htr⟩
    · rintro ⟨i, hi, hk, hgate, hvt, hsh, htr⟩
      cases i with
      | zero =>
        left; left
        have ho : (o :: rest).get ⟨0, hi⟩ = o := rfl
        rw [ho] at hgate hsh htr
        rw [if_pos hgate]
        simp only [Nat.add_zero] at hk
        simp [hk, hvt, hsh, htr]
      | succ i =>
        right
        refine (ih (j + 1) k vt' sh tr).mpr ⟨i, Nat.lt_of_succ_lt_succ hi, ?_⟩
        refine ⟨by omega, hgate, hvt, hsh, htr⟩

/-- The loop starting at index `j` emits a uniforms-update effect for every
loop index it visits, carrying the current view type. -/
theorem renderLoop_update_mem (env : RenderEnv) (vp : Viewport) (vt : ViewType)
    (lv : Option Viewport) (lt : ViewType) (objs : List Object3D) :
    ∀ j i, i < objs.length →
      Effect.updateUniforms (j + i) vt ∈ (renderLoop env vp vt lv lt j objs).2.2 := by
  induction objs with
  | nil => intro j i h; exact absurd h (Nat.not_lt_zero i)
  | cons o rest ih =>
    intro j i h
    simp only [renderLoop, List.mem_append, renderObject_effects]
    cases i with
    | zero => left; right; simp
    | succ i =>
      right
      have := ih (j + 1) i (Nat.lt_of_succ_lt_succ h)
      simpa [Nat.add_assoc, Nat.add_comm 1 i] using this

/-- The loop does not change which positions are pickable: the pickable
subset of the loop's output has the same length as that of its input. -/
theorem renderLoop_pickable_length (env : RenderEnv) (vp : Viewport) (vt : ViewType)
    (lv : Option Viewport) (lt : ViewType) (objs : List Object3D) :
    ∀ j, (getPickableObjects (renderLoop env vp vt lv lt j objs).1).length =
      (getPickableObjects objs).length := by
  induction objs with
  | nil => intro j; rfl
  | cons o rest ih =>
    intro j
    have hready := (renderObject_fields env vp vt lv lt j o).2.1
    have hint := (renderObject_fields env vp vt lv lt j o).2.2.1
    simp only [renderLoop, getPickableObjects, List.filter_cons]
    rw [hready, hint]
    split
    · simpa [getPickableObjects] using ih (j + 1)
    · simpa [getPickableObjects] using ih (j + 1)

/-- The renewal gate as a proposition: it holds exactly when no viewport is
recorded, the recorded viewport's uid differs, no view type is recorded
(`UNDEFINED`), the view type differs, or the transparencies disagree. -/
theorem renewNeeded_iff (lv : Option Viewport) (lt : ViewType) (vp : Viewport)
    (vt : ViewType) (mt dt : Bool) :
    renewNeeded lv lt vp vt mt dt = true ↔
      (lv = none ∨ (∃ l, lv = some l ∧ l.uid ≠ vp.uid) ∨
       lt = ViewType.UNDEFINED ∨ lt ≠ vt ∨ mt ≠ dt) := by
  cases lv with
  | none => simp [renewNeeded]
  | some l =>
    simp only [renewNeeded, Bool.or_eq_true, bne_iff_ne, beq_iff_eq, ne_eq,
      Option.some.injEq, reduceCtorEq, false_or]
    constructor
    · rintro (((h | h) | h) | h)
      · exact Or.inl ⟨l, rfl, h⟩
      · exact Or.inr (Or.inl h)
      · exact Or.inr (Or.inr (Or.inl h))
      · exact Or.inr (Or.inr (Or.inr h))
    · rintro (⟨l', rfl, h⟩ | h | h | h)
      · exact Or.inl (Or.inl (Or.inl h))
      · exact Or.inl (Or.inl (Or.inr h))
      · exact Or.inl (Or.inr h)
      · exact Or.inr h

/-- `render` on a non-empty container, in closed form: loop over the
objects, optional compile, draw, optional picking pass, and the update of
the change-detection cache. -/
theorem render_eq (env : RenderEnv) (s : LiveState) (v : Viewport)
    (hne : s.children.length ≠ 0) :
    render env s v =
      ({ s with
          objects := (renderLoop env v v.viewType s.lastViewport s.lastViewType 0 s.objects).1
          lastViewport := some v
          lastViewType := v.viewType },
       (renderLoop env v v.viewType s.lastViewport s.lastViewType 0 s.objects).2.2
        ++ (if (renderLoop env v v.viewType s.lastViewport s.lastViewType 0 s.objects).2.1 == true
            then [Effect.compile] else [])
        ++ [Effect.draw]
        ++ (if env.activeViewport = some v ∧
              (getPickableObjects
                (renderLoop env v v.viewType s.lastViewport s.lastViewType 0 s.objects).1).length > 0
            then [Effect.pickingRender v.uid] else [])) := by
  unfold render
  rw [if_neg hne]

/-- A replacement effect is in the effects of a render call exactly when the
loop emitted it. -/
theorem render_replace_mem (env : RenderEnv) (s : LiveState) (v : Viewport)
    (hne : s.children.length ≠ 0) (k : ℕ) (vt : ViewType) (sh : ShaderType) (tr : Bool) :
    (Effect.replaceMaterial k vt sh tr ∈ (render env s v).2 ↔
      Effect.replaceMaterial k vt sh tr ∈
        (renderLoop env v v.viewType s.lastViewport s.lastViewType 0 s.objects).2.2) := by
  rw [render_eq env s v hne]
  simp only [List.mem_append, List.mem_singleton]
  constructor
  · rintro (((h | h) | h) | h)
    · exact h
    · split at h <;> simp at h
    · simp at h
    · split at h <;> simp at h
  · intro h; exact Or.inl (Or.inl (Or.inl h))

/-- A uniforms-update effect is in the effects of a render call exactly when
the loop emitted it. -/
theorem render_update_mem (env : RenderEnv) (s : LiveState) (v : Viewport)
    (hne : s.children.length ≠ 0) (k : ℕ) (vt : ViewType) :
    (Effect.updateUniforms k vt ∈ (render env s v).2 ↔
      Effect.updateUniforms k vt ∈
        (renderLoop env v v.viewType s.lastViewport s.lastViewType 0 s.objects).2.2) := by
  rw [render_eq env s v hne]
  simp only [List.mem_append, List.mem_singleton]
  constructor
  · rintro (((h | h) | h) | h)
    · exact h
    · split at h <;> simp at h
    · simp at h
    · split at h <;> simp at h
  · intro h; exact Or.inl (Or.inl (Or.inl h))

/-- The compile effect is in the effects of a render call exactly when the
loop set the compilation-needed flag. -/
theorem render_compile_mem (env : RenderEnv) (s : LiveState) (v : Viewport)
    (hne : s.children.length ≠ 0) :
    (Effect.compile ∈ (render env s v).2 ↔
      (renderLoop env v v.viewType s.lastViewport s.lastViewType 0 s.objects).2.1 = true) := by
  rw [render_eq env s v hne]
  simp only [List.mem_append, List.mem_singleton]
  constructor
  · rintro (((h | h) | h) | h)
    · rcases renderLoop_effects_shape env v v.viewType s.lastViewport s.lastViewType
        s.objects 0 _ h with ⟨k, vt', sh, tr, he⟩ | ⟨k, vt', he⟩ <;> simp at he
    · revert h; split <;> intro h
      · next hc => simpa using hc
      · simp at h
    · simp at h
    · split at h <;> simp at h
  · intro h
    left; left; right
    rw [if_pos (by simp [h])]
    simp

/-- The picking effect is in the effects of a render call exactly when the
picking branch fired; its argument is always the rendered viewport's uid. -/
theorem render_picking_mem (env : RenderEnv) (s : LiveState) (v : Viewport)
    (hne : s.children.length ≠ 0) (u : ℕ) :
    (Effect.pickingRender u ∈ (render env s v).2 ↔
      (u = v.uid ∧ env.activeViewport = some v ∧
        (getPickableObjects
          (renderLoop env v v.viewType s.lastViewport s.lastViewType 0 s.objects).1).length > 0)) := by
  rw [render_eq env s v hne]
  simp only [List.mem_append, List.mem_singleton]
  constructor
  · rintro (((h | h) | h) | h)
    · rcases renderLoop_effects_shape env v v.viewType s.lastViewport s.lastViewType
        s.objects 0 _ h with ⟨k, vt', sh, tr, he⟩ | ⟨k, vt', he⟩ <;> simp at he
    · split at h <;> simp at h
    · simp at h
    · revert h; split <;> intro h
      · next hc => simp at h; exact ⟨h, hc⟩
      · simp at h
  · rintro ⟨rfl, hact, hlen⟩
    right
    rw [if_pos ⟨hact, hlen⟩]
    simp

/-- During a non-empty render call, the material of the object at loop index
`j` is replaced exactly when the renewal gate holds for that object. -/
theorem render_replace_iff_gate (env : RenderEnv) (s : LiveState) (v : Viewport)
    (hne : s.children.length ≠ 0) (j : ℕ) (hj : j < s.objects.length) :
    ((∃ vt sh tr, Effect.replaceMaterial j vt sh tr ∈ (render env s v).2) ↔
      renewNeeded s.lastViewport s.lastViewType v v.viewType
        (s.objects.getD j default).mesh.material.transparent
        (s.objects.getD j default).material.transparent = true) := by
  have hconv : s.objects.getD j default = s.objects.get ⟨j, hj⟩ :=
    List.getD_eq_get _ _ hj
  constructor
  · rintro ⟨vt, sh, tr, hm⟩
    rw [render_replace_mem env s v hne] at hm
    rcases (renderLoop_replace_mem env v v.viewType s.lastViewport s.lastViewType
        s.objects 0 j vt sh tr).mp hm with ⟨i, hi, hk, hgate, -, -, -⟩
    have hij : i = j := by omega
    subst hij
    rw [hconv]
    exact hgate
  · intro hgate
    rw [hconv] at hgate
    refine ⟨v.viewType, shaderTypeOf (s.objects.get ⟨j, hj⟩).material,
      (s.objects.get ⟨j, hj⟩).material.transparent, ?_⟩
    rw [render_replace_mem env s v hne]
    exact (renderLoop_replace_mem env v v.viewType s.lastViewport s.lastViewType
      s.objects 0 j _ _ _).mpr ⟨j, hj, by omega, hgate, rfl, rfl, rfl⟩

/-- C1: during a render call on a non-empty orchestrator, the material of the
object at position `j` is replaced if and only if no previous viewport is
recorded, the viewport uid differs from the last recorded one, no previous
view type is recorded (`UNDEFINED`), the view type differs from the last
recorded one, or the object's declared transparency differs from the mesh's
currently assigned material transparency; any replacement goes through
`getMaterialForView` keyed by the current view type, the shading kind
derived from the object's material type and the object's transparency flag;
and a repeated render call with the identical viewport (for a determinate
view type) and unchanged object state performs zero material replacements. -/
theorem claim_C1_material_replacement_gate (env : RenderEnv) (s : LiveState)
    (v : Viewport) (hne : s.children.length ≠ 0) (j : ℕ) (hj : j < s.objects.length) :
    ((∃ vt sh tr, Effect.replaceMaterial j vt sh tr ∈ (render env s v).2) ↔
      (s.lastViewport = none ∨
       (∃ lv, s.lastViewport = some lv ∧ lv.uid ≠ v.uid) ∨
       s.lastViewType = ViewType.UNDEFINED ∨
       s.lastViewType ≠ v.viewType ∨
       (s.objects.getD j default).mesh.material.transparent ≠
         (s.objects.getD j default).material.transparent))
    ∧ (∀ vt sh tr, Effect.replaceMaterial j vt sh tr ∈ (render env s v).2 →
        vt = v.viewType ∧ sh = shaderTypeOf (s.objects.getD j default).material ∧
        tr = (s.objects.getD j default).material.transparent)
    ∧ (v.viewType ≠ ViewType.UNDEFINED →
        ∀ k vt sh tr, Effect.replaceMaterial k vt sh tr ∉ (render env (render env s v).1 v).2) := by
  have hconv : s.objects.getD j default = s.objects.get ⟨j, hj⟩ :=
    List.getD_eq_get _ _ hj
  refine ⟨?_, ?_, ?_⟩
  · rw [render_replace_iff_gate env s v hne j hj]
    exact renewNeeded_iff s.lastViewport s.lastViewType v v.viewType _ _
  · intro vt sh tr hm
    rw [render_replace_mem env s v hne] at hm
    rcases (renderLoop_replace_mem env v v.viewType s.lastViewport s.lastViewType
        s.objects 0 j vt sh tr).mp hm with ⟨i, hi, hk, -, hvt, hsh, htr⟩
    have hij : i = j := by omega
    subst hij
    rw [hconv]
    exact ⟨hvt, hsh, htr⟩
  · intro hdet k vt sh tr hm
    have hch : (render env s v).1.children.length ≠ 0 := by
      rw [render_eq env s v hne]; exact hne
    have hlv : (render env s v).1.lastViewport = some v := by
      rw [render_eq env s v hne]
    have hlt : (render env s v).1.lastViewType = v.viewType := by
      rw [render_eq env s v hne]
    have hobj : (render env s v).1.objects =
        (renderLoop env v v.viewType s.lastViewport s.lastViewType 0 s.objects).1 := by
      rw [render_eq env s v hne]
    rw [render_replace_mem env (render env s v).1 v hch] at hm
    rcases (renderLoop_replace_mem env v v.viewType (render env s v).1.lastViewport
        (render env s v).1.lastViewType (render env s v).1.objects 0 k vt sh tr).mp hm
      with ⟨i, hi, -, hgate, -, -, -⟩
    rw [hlv, hlt] at hgate
    have hi0 : i < s.objects.length := by
      rw [hobj, renderLoop_length] at hi; exact hi
    have hTconv : (render env s v).1.objects.get ⟨i, hi⟩ =
        (render env s v).1.objects.getD i default :=
      (List.getD_eq_get _ _ hi).symm
    have hD := renderLoop_getD env v v.viewType s.lastViewport s.lastViewType
      s.objects 0 i hi0
    rw [Nat.zero_add] at hD
    have hfields := renderObject_fields env v v.viewType s.lastViewport s.lastViewType
      i (s.objects.getD i default)
    have htrans : ((render env s v).1.objects.get ⟨i, hi⟩).mesh.material.transparent =
        ((render env s v).1.objects.get ⟨i, hi⟩).material.transparent := by
      rw [hTconv]
      conv_lhs => rw [hobj, hD]
      conv_rhs => rw [hobj, hD]
      rw [hfields.2.2.2.2.2.2.1, hfields.1]
    rcases (renewNeeded_iff (some v) v.viewType v v.viewType _ _).mp hgate with
      h | ⟨l, hl, hu⟩ | h | h | h
    · exact Option.noConfusion h
    · rw [Option.some.injEq] at hl
      exact hu (by rw [hl])
    · exact hdet h
    · exact h rfl
    · exact h htrans

/-- C2: during a render call on a non-empty orchestrator, whether or not the
material reference was replaced, the assigned material's side, transparency
and opacity are set from the object's material descriptor, and the view's
uniform-population procedure is invoked for every object. -/
theorem claim_C2_always_refresh (env : RenderEnv) (s : LiveState) (v : Viewport)
    (hne : s.children.length ≠ 0) (j : ℕ) (hj : j < s.objects.length) :
    ((render env s v).1.objects.getD j default).mesh.material.side =
        (s.objects.getD j default).material.getThreeSide ∧
    ((render env s v).1.objects.getD j default).mesh.material.transparent =
        (s.objects.getD j default).material.transparent ∧
    ((render env s v).1.objects.getD j default).mesh.material.opacity =
        (s.objects.getD j default).material.opacity ∧
    Effect.updateUniforms j v.viewType ∈ (render env s v).2 := by
  have hobj : (render env s v).1.objects =
      (renderLoop env v v.viewType s.lastViewport s.lastViewType 0 s.objects).1 := by
    rw [render_eq env s v hne]
  have hD := renderLoop_getD env v v.viewType s.lastViewport s.lastViewType
    s.objects 0 j hj
  rw [Nat.zero_add] at hD
  have hfields := renderObject_fields env v v.viewType s.lastViewport s.lastViewType
    j (s.objects.getD j default)
  refine ⟨?_, ?_, ?_, ?_⟩
  · rw [hobj, hD]; exact hfields.2.2.2.2.2.1
  · rw [hobj, hD]; exact hfields.2.2.2.2.2.2.1
  · rw [hobj, hD]; exact hfields.2.2.2.2.2.2.2
  · rw [render_update_mem env s v hne]
    have := renderLoop_update_mem env v v.viewType s.lastViewport s.lastViewType
      s.objects 0 j hj
    simpa using this

/-- C4: during a render call on a non-empty orchestrator, the picking pass is
invoked for the viewport exactly when the externally designated active
viewport is the current viewport and the pickable subset is non-empty. -/
theorem claim_C4_picking_invocation (env : RenderEnv) (s : LiveState) (v : Viewport)
    (hne : s.children.length ≠ 0) :
    (Effect.pickingRender v.uid ∈ (render env s v).2 ↔
      (env.activeViewport = some v ∧ getPickableObjects s.objects ≠ [])) := by
  rw [render_picking_mem env s v hne]
  have hlen := renderLoop_pickable_length env v v.viewType s.lastViewport
    s.lastViewType s.objects 0
  constructor
  · rintro ⟨-, hact, hpos⟩
    rw [hlen] at hpos
    refine ⟨hact, fun hnil => ?_⟩
    rw [hnil] at hpos
    simp at hpos
  · rintro ⟨hact, hnil⟩
    exact ⟨rfl, hact, by rw [hlen]; exact List.length_pos.mpr hnil⟩

/-- C5: with an empty object list (and hence an empty container), `render`
is a complete no-op: the state — including the cached last viewport and last
view type — is unchanged and no effect is emitted. -/
theorem claim_C5_empty_render_noop (env : RenderEnv) (s : LiveState) (v : Viewport)
    (hobjects : s.objects = []) (hchildren : s.children = []) :
    render env s v = (s, []) := by
  simp [render, hchildren]

/-- C6: if a render call replaced the material of the object at position
`j`, that object's frustum-culling flag is afterwards enabled exactly when
the view type of that call is `RECTILINEAR`; if the call performed no
replacement for that object, the flag is left untouched. -/
theorem claim_C6_frustum_culling (env : RenderEnv) (s : LiveState) (v : Viewport)
    (hne : s.children.length ≠ 0) (j : ℕ) (hj : j < s.objects.length) :
    ((∃ vt sh tr, Effect.replaceMaterial j vt sh tr ∈ (render env s v).2) →
        ((((render env s v).1.objects.getD j default).mesh.frustumCulled = true) ↔
          v.viewType = ViewType.RECTILINEAR))
    ∧ ((¬∃ vt sh tr, Effect.replaceMaterial j vt sh tr ∈ (render env s v).2) →
        ((render env s v).1.objects.getD j default).mesh.frustumCulled =
          (s.objects.getD j default).mesh.frustumCulled) := by
  have hobj : (render env s v).1.objects =
      (renderLoop env v v.viewType s.lastViewport s.lastViewType 0 s.objects).1 := by
    rw [render_eq env s v hne]
  have hD := renderLoop_getD env v v.viewType s.lastViewport s.lastViewType
    s.objects 0 j hj
  rw [Nat.zero_add] at hD
  have hfr := renderObject_frustum env v v.viewType s.lastViewport s.lastViewType
    j (s.objects.getD j default)
  have hmem := render_replace_iff_gate env s v hne j hj
  constructor
  · intro hrep
    rw [hobj, hD, hfr, if_pos (hmem.mp hrep)]
    simp
  · intro hrep
    rw [hobj, hD, hfr, if_neg (fun hg => hrep (hmem.mpr hg))]

/-- C8: during a render call on a non-empty orchestrator, an explicit
pre-compilation occurs — and occurs before the main draw call — exactly when
some object's mesh material, as examined during its reconciliation step, has
no compiled shader program. -/
theorem claim_C8_compile_before_draw (env : RenderEnv) (s : LiveState) (v : Viewport)
    (hne : s.children.length ≠ 0) :
    ((∃ l1 l2, (render env s v).2 = l1 ++ Effect.compile :: l2 ∧ Effect.draw ∈ l2) ↔
      ∃ o ∈ s.objects, o.mesh.material.program = false) := by
  have hneed := renderLoop_need env v v.viewType s.lastViewport s.lastViewType
    s.objects 0
  constructor
  · rintro ⟨l1, l2, hdecomp, -⟩
    have hc : Effect.compile ∈ (render env s v).2 := by
      rw [hdecomp]; simp
    rw [render_compile_mem env s v hne, hneed] at hc
    rcases List.any_eq_true.mp hc with ⟨o, ho, hp⟩
    exact ⟨o, ho, by simpa using hp⟩
  · rintro ⟨o, ho, hp⟩
    have hc : (renderLoop env v v.viewType s.lastViewport s.lastViewType 0 s.objects).2.1
        = true := by
      rw [hneed]
      exact List.any_eq_true.mpr ⟨o, ho, by simp [hp]⟩
    rw [render_eq env s v hne]
    refine ⟨(renderLoop env v v.viewType s.lastViewport s.lastViewType 0 s.objects).2.2,
      Effect.draw ::
        (if env.activeViewport = some v ∧
            (getPickableObjects
              (renderLoop env v v.viewType s.lastViewport s.lastViewType 0 s.objects).1).length > 0
         then [Effect.pickingRender v.uid] else []), ?_, by simp⟩
    rw [hc]
    simp

/-- `find` over a `filter` is `find` of the conjoined predicate. -/
theorem find_filter_eq {α : Type} (p q : α → Bool) :
    ∀ l : List α, (l.filter p).find? q = l.find? (fun x => p x && q x) := by
  intro l
  induction l with
  | nil => rfl
  | cons a t ih =>
    by_cases hp : p a = true
    · rw [List.filter_cons_of_pos hp]
      by_cases hq : q a = true
      · rw [List.find?_cons_of_pos _ hq, List.find?_cons_of_pos _ (by simp [hp, hq])]
      · rw [List.find?_cons_of_neg _ (by simpa using hq),
          List.find?_cons_of_neg _ (by simp [hp, hq]), ih]
    · rw [List.filter_cons_of_neg (by simpa using hp), ih,
        List.find?_cons_of_neg _ (by simp [hp])]

/-- `find` returns the earliest match: there is an index `i` holding the
result, satisfying the predicate, with every earlier index failing it. -/
theorem find_earliest {α : Type} [Inhabited α] (p : α → Bool) :
    ∀ l : List α, (∃ x ∈ l, p x = true) →
      ∃ i, i < l.length ∧ l.find? p = some (l.getD i default) ∧
        p (l.getD i default) = true ∧ ∀ k, k < i → p (l.getD k default) = false := by
  intro l
  induction l with
  | nil => rintro ⟨x, hx, -⟩; simp at hx
  | cons a t ih =>
    intro hex
    by_cases hp : p a = true
    · exact ⟨0, Nat.succ_pos _, by rw [List.find?_cons_of_pos _ hp]; rfl, hp,
        fun k hk => absurd hk (Nat.not_lt_zero k)⟩
    · have hex' : ∃ x ∈ t, p x = true := by
        rcases hex with ⟨x, hx, hpx⟩
        rcases List.mem_cons.mp hx with rfl | hx
        · exact absurd hpx hp
        · exact ⟨x, hx, hpx⟩
      rcases ih hex' with ⟨i, hi, hfind, hpi, hbefore⟩
      refine ⟨i + 1, Nat.succ_lt_succ hi, ?_, hpi, ?_⟩
      · rw [List.find?_cons_of_neg _ (by simpa using hp)]
        exact hfind
      · intro k hk
        cases k with
        | zero => simpa using hp
        | succ k => exact hbefore k (Nat.lt_of_succ_lt_succ hk)

/-- C3: with pairwise-distinct mesh ids, `getPickableObjectWithId` returns
exactly the object whose mesh id matches and which is ready and interactive,
and nothing for any other id; the pickable-set query is the order-preserving
subsequence of ready-and-interactive objects. -/
theorem claim_C3_pickable_lookup (objs : List Object3D) (id : ℕ)
    (hids : (objs.map (fun o => o.mesh.id)).Nodup) :
    (∀ o, getPickableObjectWithId objs id = some o ↔
      (o ∈ objs ∧ o.ready = true ∧ o.interactive = true ∧ o.mesh.id = id))
    ∧ List.Sublist (getPickableObjects objs) objs
    ∧ (∀ o, o ∈ getPickableObjects objs ↔
        (o ∈ objs ∧ o.ready = true ∧ o.interactive = true)) := by
  have hinj := List.inj_on_of_nodup_map hids
  have heq : getPickableObjectWithId objs id =
      objs.find? (fun o => (o.ready == true && o.interactive == true) && o.mesh.id == id) := by
    unfold getPickableObjectWithId getPickableObjects
    exact find_filter_eq _ _ objs
  refine ⟨?_, List.filter_sublist _, ?_⟩
  · intro o
    rw [heq]
    constructor
    · intro hfind
      have hmem := List.mem_of_find?_eq_some hfind
      have hpred := List.find?_some hfind
      simp only [Bool.and_eq_true, beq_iff_eq] at hpred
      exact ⟨hmem, hpred.1.1, hpred.1.2, hpred.2⟩
    · rintro ⟨hmem, hready, hint, hid⟩
      cases hfind : objs.find?
          (fun o => (o.ready == true && o.interactive == true) && o.mesh.id == id) with
      | none =>
        exact absurd (by simp [hready, hint, hid] :
            ((o.ready == true && o.interactive == true) && o.mesh.id == id) = true)
          (by simpa using List.find?_eq_none.mp hfind o hmem)
      | some x =>
        have hxmem := List.mem_of_find?_eq_some hfind
        have hxpred := List.find?_some hfind
        simp only [Bool.and_eq_true, beq_iff_eq] at hxpred
        have : x = o := hinj hxmem hmem (by rw [hxpred.2, hid])
        rw [this]
  · intro o
    simp [getPickableObjects, List.mem_filter]

/-- C10: when several pickable objects share a mesh id, the lookup returns
the earliest of them in the object list's original order. -/
theorem claim_C10_earliest_match (objs : List Object3D) (id : ℕ)
    (hex : ∃ o ∈ objs, o.ready = true ∧ o.interactive = true ∧ o.mesh.id = id) :
    ∃ i, i < objs.length ∧
      getPickableObjectWithId objs id = some (objs.getD i default) ∧
      ((objs.getD i default).ready = true ∧ (objs.getD i default).interactive = true ∧
        (objs.getD i default).mesh.id = id) ∧
      ∀ k, k < i → ¬((objs.getD k default).ready = true ∧
        (objs.getD k default).interactive = true ∧ (objs.getD k default).mesh.id = id) := by
  have heq : getPickableObjectWithId objs id =
      objs.find? (fun o => (o.ready == true && o.interactive == true) && o.mesh.id == id) := by
    unfold getPickableObjectWithId getPickableObjects
    exact find_filter_eq _ _ objs
  have hex' : ∃ o ∈ objs,
      ((o.ready == true && o.interactive == true) && o.mesh.id == id) = true := by
    rcases hex with ⟨o, ho, h1, h2, h3⟩
    exact ⟨o, ho, by simp [h1, h2, h3]⟩
  rcases find_earliest _ objs hex' with ⟨i, hi, hfind, hpi, hbefore⟩
  refine ⟨i, hi, by rw [heq]; exact hfind, ?_, ?_⟩
  · simpa only [Bool.and_eq_true, beq_iff_eq, and_assoc] using hpi
  · intro k hk hcontra
    have hfalse := hbefore k hk
    rw [hcontra.1, hcontra.2.1, hcontra.2.2] at hfalse
    simp at hfalse

/-- C7: after construction with pairwise-distinct mesh ids and a
collision-free identity-to-color mapping, the container has exactly one
child per object, every child carries a picking-color tag derived from its
id, and all tags are pairwise distinct. -/
theorem claim_C7_boot_picking_colors (cfoid : ℕ → ℕ) (objects : List Object3D)
    (hids : (objects.map (fun o => o.mesh.id)).Nodup)
    (hinj : Function.Injective cfoid) :
    (boot cfoid objects).2.length = objects.length ∧
    (∀ m ∈ (boot cfoid objects).2, m.pickingColor = some (cfoid m.id)) ∧
    ((boot cfoid objects).2.map (fun m => m.pickingColor)).Nodup := by
  refine ⟨by simp [boot], ?_, ?_⟩
  · intro m hm
    simp only [boot, List.map_map, List.mem_map, Function.comp] at hm
    rcases hm with ⟨o, -, rfl⟩
    rfl
  · have hrw : (boot cfoid objects).2.map (fun m => m.pickingColor) =
        (objects.map (fun o => o.mesh.id)).map (fun i => some (cfoid i)) := by
      simp only [boot, List.map_map]
      rfl
    rw [hrw]
    exact hids.map (fun a b h => hinj (Option.some.inj h))

/-- C9: destroying a live instance succeeds and clears the picking
subsystem, the object list, the container, the cached viewport and the
rendering-context reference; on the resulting instance the picking-release
step succeeds (no throw) because it is null-guarded. -/
theorem claim_C9_destroy_clears (s : ORState) (sc : Scene) (hscene : s.scene = some sc) :
    ∃ s', destroy s = some s' ∧
      s'.objects = none ∧ s'.scene = none ∧ s'.lastViewport = none ∧
      s'.viewer = none ∧ s'.picking = none ∧
      destroyPickingStep s' = some s' := by
  cases hp : s.picking with
  | none =>
    refine ⟨{ s with
        objects := none,
        scene := none,
        lastViewport := none,
        viewer := none,
        picking := none },
      ?_, rfl, rfl, rfl, rfl, rfl, ?_⟩
    · simp [destroy, destroyPickingStep, hp, hscene]
    · simp [destroyPickingStep]
  | some u =>
    refine ⟨{ s with
        objects := none,
        scene := none,
        lastViewport := none,
        viewer := none,
        picking := none },
      ?_, rfl, rfl, rfl, rfl, rfl, ?_⟩
    · simp [destroy, destroyPickingStep, hp, hscene, pickingDestroyCall]
    · simp [destroyPickingStep]

/-- Witness for C1: on the first render call of the sample orchestrator
(no previous viewport recorded), the object's material is replaced. -/
theorem claim_C1_witness :
    ∃ vt sh tr, Effect.replaceMaterial 0 vt sh tr ∈
      (render sampleEnv sampleState sampleViewport).2 :=
  ((claim_C1_material_replacement_gate sampleEnv sampleState sampleViewport
    (by decide) 0 (by decide)).1).mpr (Or.inl rfl)

/-- Witness for C2: the sample render call invokes the uniforms update for
its object. -/
theorem claim_C2_witness :
    Effect.updateUniforms 0 ViewType.RECTILINEAR ∈
      (render sampleEnv sampleState sampleViewport).2 :=
  (claim_C2_always_refresh sampleEnv sampleState sampleViewport
    (by decide) 0 (by decide)).2.2.2

/-- Witness for C3: the lookup finds the ready-and-interactive sample
object by its mesh id. -/
theorem claim_C3_witness :
    getPickableObjectWithId [sampleObject] 7 = some sampleObject :=
  ((claim_C3_pickable_lookup [sampleObject] 7 (by decide)).1 sampleObject).mpr
    ⟨List.mem_singleton.mpr rfl, rfl, rfl, rfl⟩

/-- Witness for C4: the sample viewport is active and the sample object is
pickable, so the picking pass is invoked. -/
theorem claim_C4_witness :
    Effect.pickingRender 3 ∈ (render sampleEnv sampleState sampleViewport).2 :=
  (claim_C4_picking_invocation sampleEnv sampleState sampleViewport
    (by decide)).mpr ⟨rfl, by decide⟩

/-- Witness for C5: rendering the empty sample orchestrator is a no-op. -/
theorem claim_C5_witness :
    render sampleEnv sampleEmptyState sampleViewport = (sampleEmptyState, []) :=
  claim_C5_empty_render_noop sampleEnv sampleEmptyState sampleViewport rfl rfl

/-- Witness for C6: the sample render call replaces the material under a
rectilinear view, so frustum culling ends up enabled. -/
theorem claim_C6_witness :
    ((render sampleEnv sampleState sampleViewport).1.objects.getD 0
      default).mesh.frustumCulled = true :=
  ((claim_C6_frustum_culling sampleEnv sampleState sampleViewport
    (by decide) 0 (by decide)).1
    ⟨ViewType.RECTILINEAR, ShaderType.color, false, by decide⟩).mpr rfl

/-- Witness for C7: booting the one-object sample yields one child and
pairwise-distinct picking-color tags. -/
theorem claim_C7_witness :
    (boot (fun n => n) [sampleObject]).2.length = 1 ∧
    ((boot (fun n => n) [sampleObject]).2.map (fun m => m.pickingColor)).Nodup := by
  have h := claim_C7_boot_picking_colors (fun n => n) [sampleObject]
    (by decide) (fun a b hab => hab)
  exact ⟨h.1, h.2.2⟩

/-- Witness for C8: the sample object's material has no compiled program,
so the compile call happens and precedes the draw call. -/
theorem claim_C8_witness :
    ∃ l1 l2, (render sampleEnv sampleState sampleViewport).2 =
      l1 ++ Effect.compile :: l2 ∧ Effect.draw ∈ l2 :=
  (claim_C8_compile_before_draw sampleEnv sampleState sampleViewport
    (by decide)).mpr ⟨sampleState.objects.getD 0 default, by decide, rfl⟩

/-- Witness for C9: destroying the sample live state succeeds, clears every
owned reference, and the subsequent picking-release step does not throw. -/
theorem claim_C9_witness :
    ∃ s', destroy sampleORState = some s' ∧ s'.objects = none ∧ s'.scene = none ∧
      s'.lastViewport = none ∧ s'.viewer = none ∧ s'.picking = none ∧
      destroyPickingStep s' = some s' :=
  claim_C9_destroy_clears sampleORState { children := some [sampleMesh] } rfl

/-- Witness for C10: with two pickable objects sharing mesh id 7, the
lookup returns the first one in list order. -/
theorem claim_C10_witness :
    getPickableObjectWithId [sampleObject, sampleObjectDup] 7 = some sampleObject := by
  rcases claim_C10_earliest_match [sampleObject, sampleObjectDup] 7
      ⟨sampleObject, List.mem_cons_self _ _, rfl, rfl, rfl⟩ with ⟨i, hi, hfind, hpi, hbefore⟩
  match i, hfind, hbefore with
  | 0, hfind, _ => exact hfind
  | (k+1), _, hbefore =>
    exact absurd ⟨rfl, rfl, rfl⟩ (hbefore 0 (Nat.succ_pos k))

end FORGE
